import Mathlib

/-!
Verification of the context-folding MCP server (`src/server/index.js`).

The server keeps a persisted fold index (`state.json`, modelled by `Store`)
plus one detail blob per fold id (modelled by an association list
`disk : List (String × String)`), and answers four tool calls:
`unfold_section`, `fold_section`, `list_folds`, `write_summary`.

Numbers: the source computes `Math.round(text.length / 3.75)` on IEEE
doubles.  We model JS numbers by exact rationals; this is exact for the
estimator because 3.75 = 15/4 is a representable double and the quotient
`4L/15` is never within double rounding error of a half-integer (its
distance from any half-integer is at least 1/30).  JSON fields that the
source reads with a falsy-coalescing default (`f.summary_tokens || 0`,
`fold.files_touched && fold.files_touched.length`) are modelled as total
fields carrying that default.
-/

/-- JS `Math.round`: round half towards positive infinity. -/
def jsRound (q : ℚ) : ℤ := ⌊q + 1/2⌋

/-- `estimateTokens` (src/server/index.js:47-49):
`Math.max(1, Math.round((text || "").length / 3.75))`. -/
def estimateTokens (text : String) : Nat :=
  max 1 (jsRound ((text.length : ℚ) / 3.75)).toNat

/-- One record of the persisted fold index (`state.json`). -/
structure FoldRecord where
  id : String
  status : String
  summary : String
  summary_tokens : Nat
  detail_tokens : Nat
  relevance_score : ℚ
  files_touched : List String
deriving DecidableEq

/-- The whole persisted index (`state.json`). -/
structure Store where
  version : Nat
  session_id : Option String
  total_summary_tokens : Nat
  folds : List FoldRecord
deriving DecidableEq

/-- `loadState` (src/server/index.js:33-39): parse the state file; a missing
or unparseable file (modelled by `none`) yields the fresh empty store of the
`catch` branch. -/
def loadState : Option Store → Store
  | some s => s
  | none =>
    { version := 1, session_id := none, total_summary_tokens := 0, folds := [] }

/-- `findFold` (src/server/index.js:51-53): first record whose `id` matches. -/
def findFold (state : Store) (foldId : String) : Option FoldRecord :=
  state.folds.find? (fun f => f.id == foldId)

/-- Reading `FOLDS_DIR/<foldId>.md` (`fs.existsSync` + `fs.readFileSync`):
the folds directory is an association list from fold id to blob text. -/
def readDetail (disk : List (String × String)) (foldId : String) :
    Option String :=
  (disk.find? (fun e => e.1 == foldId)).map (fun e => e.2)

/-- In-place mutation of the record object returned by `findFold`
(`fold.status = ...`): rewrite the first record whose id matches. -/
def updateFirst (upd : FoldRecord → FoldRecord) (foldId : String) :
    List FoldRecord → List FoldRecord
  | [] => []
  | f :: rest =>
    if f.id == foldId then upd f :: rest else f :: updateFirst upd foldId rest

/-- The ASCII single-quote character used by the server's error messages. -/
def sqChar : String := String.mk [Char.ofNat 39]

/-- Message of src/server/index.js:146. -/
def notFoundDisk (foldId : String) : String :=
  "Error: fold " ++ sqChar ++ foldId ++ sqChar ++ " not found on disk."

/-- Message of src/server/index.js:169 and :219. -/
def notFoundState (foldId : String) : String :=
  "Error: fold " ++ sqChar ++ foldId ++ sqChar ++ " not found in state."

/-- `unfold_section` tool case (src/server/index.js:141-160).  Returns the
result text together with the state file content after the call. -/
def unfold_section (disk : List (String × String)) (file : Option Store)
    (foldId : String) : String × Option Store :=
  match readDetail disk foldId with
  | none => (notFoundDisk foldId, file)
  | some detail =>
    let state := loadState file
    match findFold state foldId with
    | some _ =>
      let state2 := { state with
        folds := updateFirst (fun f => { f with status := "unfolded" })
          foldId state.folds }
      ("[" ++ foldId ++ " UNFOLDED - " ++ toString (estimateTokens detail)
        ++ " tokens]\n\n" ++ detail, some state2)
    | none =>
      ("[" ++ foldId ++ " UNFOLDED - " ++ toString (estimateTokens detail)
        ++ " tokens]\n\n" ++ detail, file)

/-- `fold_section` tool case (src/server/index.js:163-178). -/
def fold_section (file : Option Store) (foldId : String) :
    String × Option Store :=
  let state := loadState file
  match findFold state foldId with
  | none => (notFoundState foldId, file)
  | some fold =>
    let state2 := { state with
      folds := updateFirst (fun f => { f with status := "folded" })
        foldId state.folds }
    ("[" ++ foldId ++ " FOLDED]\nSummary: " ++ fold.summary, some state2)

/-- JS `String.prototype.toUpperCase` restricted to ASCII letters (all the
server ever upper-cases are ids like `fold-001` and the two status words). -/
def jsToUpper (s : String) : String := String.mk (s.data.map Char.toUpper)

/-- JS `String.prototype.replace` with a string pattern: replace the first
occurrence only. -/
def replaceFirstChars (pat repl : List Char) : List Char → List Char
  | [] => []
  | c :: rest =>
    if pat.isPrefixOf (c :: rest) then repl ++ (c :: rest).drop pat.length
    else c :: replaceFirstChars pat repl rest

/-- JS `s.replace(pat, repl)` (first occurrence only). -/
def replaceFirst (s pat repl : String) : String :=
  String.mk (replaceFirstChars pat.data repl.data s.data)

/-- JS `(fold.relevance_score || 0).toFixed(2)` on the scores' value range:
round to hundredths and print with exactly two decimals. -/
def toFixed2 (q : ℚ) : String :=
  let n : ℤ := jsRound (q * 100)
  (if n < 0 then "-" else "") ++ toString (n.natAbs / 100) ++ "." ++
    (if n.natAbs % 100 < 10 then "0" else "") ++ toString (n.natAbs % 100)

/-- The two lines (plus optional files line and blank line) appended for one
record by the `list_folds` loop (src/server/index.js:197-207). -/
def renderFold (fold : FoldRecord) : String :=
  let fid := replaceFirst (jsToUpper fold.id) "FOLD-" "F"
  let st := jsToUpper fold.status
  let rel := toFixed2 fold.relevance_score
  (fid ++ " | " ++ st ++ " | " ++ toString fold.detail_tokens
      ++ " tok | rel:" ++ rel ++ "\n")
    ++ ("  " ++ fold.summary ++ "\n")
    ++ (if fold.files_touched.isEmpty then ""
        else "  files: " ++ String.intercalate ", " fold.files_touched ++ "\n")
    ++ "\n"

/-- `reduce((s, f) => s + (f.detail_tokens || 0), 0)` of
src/server/index.js:188-191. -/
def sumDetailTokens (folds : List FoldRecord) : Nat :=
  folds.foldl (fun s f => s + f.detail_tokens) 0

/-- `reduce((s, f) => s + (f.summary_tokens || 0), 0)` of
src/server/index.js:224-227. -/
def sumSummaryTokens (folds : List FoldRecord) : Nat :=
  folds.foldl (fun s f => s + f.summary_tokens) 0

/-- `list_folds` tool case (src/server/index.js:181-210): header then the
`out +=` loop over the records, modelled as a `foldl` that appends. -/
def list_folds (file : Option Store) : String × Option Store :=
  let state := loadState file
  if state.folds.isEmpty then
    ("No folds stored yet.", file)
  else
    (state.folds.foldl (fun out f => out ++ renderFold f)
      ("[FOLD INDEX - " ++ toString state.folds.length ++ " sections, "
        ++ toString (sumDetailTokens state.folds) ++ " tokens stored]\n\n"),
      file)

/-- `write_summary` tool case (src/server/index.js:213-233). -/
def write_summary (file : Option Store) (foldId summaryText : String) :
    String × Option Store :=
  let state := loadState file
  match findFold state foldId with
  | none => (notFoundState foldId, file)
  | some _ =>
    let newTokens := estimateTokens summaryText
    let folds2 := updateFirst
      (fun f => { f with summary := summaryText, summary_tokens := newTokens })
      foldId state.folds
    let state2 := { state with
      folds := folds2, total_summary_tokens := sumSummaryTokens folds2 }
    ("Summary updated for " ++ foldId ++ " (" ++ toString newTokens
      ++ " tokens)", some state2)

/-- A tool-call request as dispatched by the `CallToolRequestSchema`
handler's `switch` (src/server/index.js:136-238). -/
inductive ToolCall where
  | unfoldSection (fold_id : String)
  | foldSection (fold_id : String)
  | listFolds
  | writeSummary (fold_id : String) (summaryText : String)
  | unknown (toolName : String)
deriving DecidableEq

/-- The `switch` of the call-tool handler, including its `default` branch. -/
def handleCall (disk : List (String × String)) (file : Option Store) :
    ToolCall → String × Option Store
  | .unfoldSection fid => unfold_section disk file fid
  | .foldSection fid => fold_section file fid
  | .listFolds => list_folds file
  | .writeSummary fid s => write_summary file fid s
  | .unknown toolName => ("Unknown tool: " ++ toolName, file)

/-- One entry of the list-tools catalog: name, description, the declared
input properties in order, and the required ones. -/
structure ToolSpec where
  name : String
  description : String
  propertyNames : List String
  required : List String
deriving DecidableEq

/-- The catalog returned by the `ListToolsRequestSchema` handler
(src/server/index.js:68-132), verbatim. -/
def listedTools : List ToolSpec :=
  [ { name := "unfold_section",
      description :=
        "Expand a folded conversation section to see its full detail. "
          ++ "Use when you need specific code, errors, or decisions from an earlier section.",
      propertyNames := ["fold_id"], required := ["fold_id"] },
    { name := "fold_section",
      description :=
        "Collapse a section back to summary-only. "
          ++ "Use when you no longer need the full detail to free context space.",
      propertyNames := ["fold_id"], required := ["fold_id"] },
    { name := "list_folds",
      description :=
        "List all fold sections with their status, summary, token count, and relevance score.",
      propertyNames := [], required := [] },
    { name := "write_summary",
      description :=
        "Write or update the self-compressed summary for a fold. "
          ++ "Use the dense format: topic>action: key.details | outcome | D:files",
      propertyNames := ["fold_id", "summary"],
      required := ["fold_id", "summary"] } ]

/-- The bookkeeping invariant of the store: the cached total equals the sum
of the per-record summary token counts. -/
def storeInvariant (s : Store) : Prop :=
  s.total_summary_tokens = sumSummaryTokens s.folds

instance storeInvariantDecidable (s : Store) : Decidable (storeInvariant s) :=
  inferInstanceAs (Decidable (s.total_summary_tokens = sumSummaryTokens s.folds))

/-! ### Concrete fixtures used by witnesses -/

/-- One folded record, as in the spec scenario for unfolding. -/
def recC3 : FoldRecord :=
  { id := "fold-001", status := "folded", summary := "auth>fix",
    summary_tokens := 2, detail_tokens := 4, relevance_score := 0,
    files_touched := [] }

def storeC3 : Store :=
  { version := 1, session_id := none, total_summary_tokens := 2,
    folds := [recC3] }

def recC1a : FoldRecord :=
  { id := "fold-001", status := "folded", summary := "aaa",
    summary_tokens := 5, detail_tokens := 100, relevance_score := 0,
    files_touched := [] }

def recC1b : FoldRecord :=
  { id := "fold-002", status := "folded", summary := "bbb",
    summary_tokens := 7, detail_tokens := 200, relevance_score := 0,
    files_touched := [] }

def storeC1 : Store :=
  { version := 1, session_id := none, total_summary_tokens := 12,
    folds := [recC1a, recC1b] }

/-- A 34-character summary, estimating to 9 tokens. -/
def strC1 : String := "auth>fix: token.refresh.chain.done"

def recC5a : FoldRecord :=
  { id := "fold-001", status := "folded", summary := "auth>fix: jwt",
    summary_tokens := 3, detail_tokens := 3200, relevance_score := 0.85,
    files_touched := [] }

def recC5b : FoldRecord :=
  { id := "fold-002", status := "unfolded", summary := "db>migrate",
    summary_tokens := 3, detail_tokens := 2800, relevance_score := 0,
    files_touched := ["src/db.ts", "src/schema.sql"] }

def storeC5 : Store :=
  { version := 1, session_id := none, total_summary_tokens := 6,
    folds := [recC5a, recC5b] }

/-! ### Shared helper lemmas -/

/-- Closed integer form of the estimator: `round(L/3.75) = (8L+15)/30`. -/
theorem estimateTokens_div30 (s : String) :
    estimateTokens s = max 1 ((8 * s.length + 15) / 30) := by
  have h : ((s.length : ℚ)) / 3.75 + 1/2
      = ((8 * s.length + 15 : ℕ) : ℚ) / ((30 : ℕ) : ℚ) := by
    push_cast
    ring_nf
  rw [estimateTokens, jsRound, h, Rat.floor_natCast_div_natCast]
  omega

theorem toFixed2_p85 : toFixed2 (0.85 : ℚ) = "0.85" := by
  have h : jsRound ((0.85 : ℚ) * 100) = 85 := by
    rw [jsRound]; norm_num
  rw [toFixed2, h]; decide

theorem toFixed2_zero : toFixed2 (0 : ℚ) = "0.00" := by
  have h : jsRound ((0 : ℚ) * 100) = 0 := by
    rw [jsRound]; norm_num
  rw [toFixed2, h]; decide

theorem foldl_add_shift (proj : FoldRecord → Nat) (a : Nat)
    (l : List FoldRecord) :
    l.foldl (fun s f => s + proj f) a
      = a + l.foldl (fun s f => s + proj f) 0 := by
  induction l generalizing a with
  | nil => simp
  | cons f t ih =>
    simp only [List.foldl_cons]
    rw [ih (a + proj f), ih (0 + proj f)]
    omega

theorem sumSummaryTokens_cons (f : FoldRecord) (l : List FoldRecord) :
    sumSummaryTokens (f :: l) = f.summary_tokens + sumSummaryTokens l := by
  rw [sumSummaryTokens, sumSummaryTokens, List.foldl_cons,
    foldl_add_shift _ (0 + f.summary_tokens)]
  omega

/-- Updating one record without touching its `summary_tokens` leaves the
summary-token sum unchanged. -/
theorem sumSummaryTokens_updateFirst (upd : FoldRecord → FoldRecord)
    (hupd : ∀ f, (upd f).summary_tokens = f.summary_tokens)
    (foldId : String) (l : List FoldRecord) :
    sumSummaryTokens (updateFirst upd foldId l) = sumSummaryTokens l := by
  induction l with
  | nil => rfl
  | cons f t ih =>
    rw [updateFirst]
    by_cases h : f.id == foldId
    · simp only [h, if_true]
      rw [sumSummaryTokens_cons, sumSummaryTokens_cons, hupd]
    · simp only [h]
      rw [if_neg (by simp_all), sumSummaryTokens_cons, sumSummaryTokens_cons, ih]

/-- `findFold` after `updateFirst` with an id-preserving update returns the
updated record. -/
theorem find?_updateFirst (upd : FoldRecord → FoldRecord)
    (hid : ∀ g, (upd g).id = g.id) (foldId : String)
    (l : List FoldRecord) (f : FoldRecord)
    (h : l.find? (fun g => g.id == foldId) = some f) :
    (updateFirst upd foldId l).find? (fun g => g.id == foldId)
      = some (upd f) := by
  induction l with
  | nil => simp at h
  | cons a t ih =>
    by_cases ha : (a.id == foldId) = true
    · simp only [List.find?, ha] at h
      injection h with h
      subst h
      rw [updateFirst, if_pos ha]
      simp only [List.find?, hid, ha]
    · simp only [List.find?, ha] at h
      rw [updateFirst, if_neg ha]
      simp only [List.find?, ha]
      exact ih h

/-- If the first matching record is left literally unchanged by the update,
`updateFirst` is the identity. -/
theorem updateFirst_eq_self (upd : FoldRecord → FoldRecord) (foldId : String)
    (l : List FoldRecord) (f : FoldRecord)
    (h : l.find? (fun g => g.id == foldId) = some f) (hf : upd f = f) :
    updateFirst upd foldId l = l := by
  induction l with
  | nil => rfl
  | cons a t ih =>
    by_cases ha : (a.id == foldId) = true
    · simp only [List.find?, ha] at h
      injection h with h
      subst h
      rw [updateFirst, if_pos ha, hf]
    · simp only [List.find?, ha] at h
      rw [updateFirst, if_neg ha, ih h]

/-- A store found by `findFold` forces the state file to be present. -/
theorem file_eq_some_of_findFold (file : Option Store) (foldId : String)
    (f : FoldRecord) (h : findFold (loadState file) foldId = some f) :
    file = some (loadState file) := by
  cases file with
  | some s => rfl
  | none => simp [loadState, findFold] at h

theorem foldl_string_append_shift (a : String) (l : List String) :
    l.foldl (fun r s => r ++ s) a = a ++ l.foldl (fun r s => r ++ s) "" := by
  induction l generalizing a with
  | nil => simp
  | cons s t ih =>
    simp only [List.foldl_cons]
    rw [ih (a ++ s), ih ("" ++ s)]
    simp [String.append_assoc]

theorem join_cons (s : String) (l : List String) :
    String.join (s :: l) = s ++ String.join l := by
  rw [String.join, String.join, List.foldl_cons]
  rw [foldl_string_append_shift ("" ++ s) l]
  simp

/-- The `out +=` accumulation of `list_folds` is the concatenation of the
per-record renderings, in store order. -/
theorem foldl_render_eq_join (init : String) (l : List FoldRecord) :
    l.foldl (fun out f => out ++ renderFold f) init
      = init ++ String.join (l.map renderFold) := by
  induction l generalizing init with
  | nil => simp [String.join]
  | cons f t ih =>
    simp only [List.foldl_cons, List.map_cons, join_cons]
    rw [ih]
    simp [String.append_assoc]

theorem storeInvariant_loadState (file : Option Store)
    (h : ∀ s, file = some s → storeInvariant s) :
    storeInvariant (loadState file) := by
  cases file with
  | some s => exact h s rfl
  | none => decide

/-! ### Claim theorems -/

/-- Claim C9: when the index file is missing or does not parse, `loadState`
returns a fresh empty store with `version = 1`, no folds and
`total_summary_tokens = 0`, rather than failing. -/
theorem loadState_failure_fresh_store :
    loadState none
      = { version := 1, session_id := none, total_summary_tokens := 0,
          folds := [] } := rfl

/-- Claim C2: the token estimate of a text of length `L` is
`max(1, round(L / 3.75))` (second conjunct gives the exact integer form of
that formula, `round(L/3.75) = (8L+15)/30`, never a tie since `8L` is even
and `15(2k+1)` odd), and the empty text estimates to 1. -/
theorem estimateTokens_formula :
    (∀ s : String,
      estimateTokens s = max 1 (⌊(s.length : ℚ) / 3.75 + 1/2⌋).toNat)
    ∧ (∀ s : String, estimateTokens s = max 1 ((8 * s.length + 15) / 30))
    ∧ estimateTokens "" = 1 := by
  refine ⟨fun s => rfl, estimateTokens_div30, ?_⟩
  rw [estimateTokens_div30]
  decide

/-- Claim C7, counterexample: the list-tools catalog of the server exposes
four tools, and none of them is named `guide`. -/
theorem tool_catalog_has_no_guide :
    listedTools.length = 4
      ∧ ((listedTools.map ToolSpec.name).contains "guide") = false := by
  decide

/-- Claim C7, amended: the dispatcher exposes exactly the four operations
`unfold_section`, `fold_section`, `list_folds`, `write_summary` with the
argument names of the source catalog; there is no `guide` operation, and
calling a tool named `guide` yields the unknown-tool text with no store
mutation. -/
theorem tool_catalog_four_tools :
    listedTools.map ToolSpec.name
        = ["unfold_section", "fold_section", "list_folds", "write_summary"]
      ∧ listedTools.map ToolSpec.required
        = [["fold_id"], ["fold_id"], [], ["fold_id", "summary"]]
      ∧ listedTools.map ToolSpec.propertyNames
        = [["fold_id"], ["fold_id"], [], ["fold_id", "summary"]]
      ∧ ∀ (disk : List (String × String)) (file : Option Store),
          handleCall disk file (ToolCall.unknown "guide")
            = ("Unknown tool: guide", file) := by
  refine ⟨by decide, by decide, by decide, fun disk file => rfl⟩

/-- Claim C3: when the detail blob exists and the record is in the index,
`unfold_section` returns `"[<id> UNFOLDED - <N> tokens]\n\n<detail>"` with
`N` estimated fresh from the detail text, sets the record's status to
`unfolded`, and persists the store. -/
theorem unfold_section_found_updates_status
    (disk : List (String × String)) (file : Option Store)
    (foldId detail : String) (f : FoldRecord)
    (hd : readDetail disk foldId = some detail)
    (hf : findFold (loadState file) foldId = some f) :
    (unfold_section disk file foldId).1
        = "[" ++ foldId ++ " UNFOLDED - " ++ toString (estimateTokens detail)
            ++ " tokens]\n\n" ++ detail
      ∧ ∃ s2, (unfold_section disk file foldId).2 = some s2
          ∧ findFold s2 foldId = some { f with status := "unfolded" } := by
  rw [findFold] at hf
  have he : unfold_section disk file foldId
      = ("[" ++ foldId ++ " UNFOLDED - " ++ toString (estimateTokens detail)
          ++ " tokens]\n\n" ++ detail,
        some { loadState file with
          folds := updateFirst (fun g => { g with status := "unfolded" })
            foldId (loadState file).folds }) := by
    simp only [unfold_section, hd, findFold, hf]
  rw [he]
  refine ⟨rfl, _, rfl, ?_⟩
  rw [findFold]
  exact find?_updateFirst (fun g => { g with status := "unfolded" })
    (fun g => rfl) foldId (loadState file).folds f hf

/-- Claim C4: `unfold_section` with no detail blob, and
`fold_section`/`write_summary` with an id absent from the index, return a
textual not-found message and leave the persisted store untouched. -/
theorem not_found_is_text_and_no_mutation
    (disk : List (String × String)) (file : Option Store)
    (foldId summaryText : String) :
    (readDetail disk foldId = none →
      unfold_section disk file foldId = (notFoundDisk foldId, file))
    ∧ (findFold (loadState file) foldId = none →
        fold_section file foldId = (notFoundState foldId, file)
        ∧ write_summary file foldId summaryText
            = (notFoundState foldId, file)) := by
  refine ⟨fun hd => ?_, fun hf => ⟨?_, ?_⟩⟩
  · simp only [unfold_section, hd]
  · simp only [fold_section, hf]
  · simp only [write_summary, hf]

/-- Claim C8: `fold_section` on an id whose record is already `folded`
leaves the persisted store exactly as it was and still returns the
confirmation text with the record's current summary. -/
theorem fold_section_idempotent
    (file : Option Store) (foldId : String) (f : FoldRecord)
    (hf : findFold (loadState file) foldId = some f)
    (hst : f.status = "folded") :
    fold_section file foldId
      = ("[" ++ foldId ++ " FOLDED]\nSummary: " ++ f.summary, file) := by
  obtain ⟨s, rfl⟩ : ∃ s, file = some s := by
    cases file with
    | some s => exact ⟨s, rfl⟩
    | none => rw [findFold] at hf; simp [loadState] at hf
  have hf2 : s.folds.find? (fun g => g.id == foldId) = some f := by
    rw [findFold] at hf; exact hf
  have hupd : (fun g => { g with status := "folded" }) f = f := by
    cases f
    simp_all
  have he : fold_section (some s) foldId
      = ("[" ++ foldId ++ " FOLDED]\nSummary: " ++ f.summary,
        some { s with
          folds := updateFirst (fun g => { g with status := "folded" })
            foldId s.folds }) := by
    simp only [fold_section, loadState, findFold, hf2]
  rw [he, updateFirst_eq_self _ foldId _ f hf2 hupd]

/-- Claim C10: a detail blob with no index record still yields the
success-shaped unfold text, and the store is left unchanged (no record
created, nothing saved). -/
theorem unfold_section_orphan_detail
    (disk : List (String × String)) (file : Option Store)
    (foldId detail : String)
    (hd : readDetail disk foldId = some detail)
    (hf : findFold (loadState file) foldId = none) :
    unfold_section disk file foldId
      = ("[" ++ foldId ++ " UNFOLDED - " ++ toString (estimateTokens detail)
          ++ " tokens]\n\n" ++ detail, file) := by
  simp only [unfold_section, hd, hf]

theorem list_folds_snd (file : Option Store) : (list_folds file).2 = file := by
  rw [list_folds]
  by_cases hc : (loadState file).folds.isEmpty
  · rw [if_pos hc]
  · rw [if_neg hc]

/-- Claim C1: if the loaded store satisfies the token-accounting invariant,
then after any tool call the persisted store still satisfies it (in
particular `write_summary` re-establishes it by re-summing over all
records). -/
theorem handleCall_preserves_total_summary_invariant
    (disk : List (String × String)) (file : Option Store) (call : ToolCall)
    (h : storeInvariant (loadState file)) :
    ∀ s2, (handleCall disk file call).2 = some s2 → storeInvariant s2 := by
  have hfile : ∀ s2, file = some s2 → storeInvariant s2 := by
    intro s2 h2
    rw [h2] at h
    exact h
  simp only [storeInvariant] at h ⊢
  cases call with
  | unfoldSection fid =>
    intro s2 h2
    rcases hd : readDetail disk fid with _ | detail
    · simp only [handleCall, unfold_section, hd] at h2
      exact hfile s2 h2
    · rcases hff : findFold (loadState file) fid with _ | g
      · simp only [handleCall, unfold_section, hd, hff] at h2
        exact hfile s2 h2
      · simp only [handleCall, unfold_section, hd, hff] at h2
        injection h2 with h2
        subst h2
        simp only
        rw [sumSummaryTokens_updateFirst (fun f => { f with status := "unfolded" })
          (fun g => rfl)]
        exact h
  | foldSection fid =>
    intro s2 h2
    rcases hff : findFold (loadState file) fid with _ | g
    · simp only [handleCall, fold_section, hff] at h2
      exact hfile s2 h2
    · simp only [handleCall, fold_section, hff] at h2
      injection h2 with h2
      subst h2
      simp only
      rw [sumSummaryTokens_updateFirst (fun f => { f with status := "folded" })
        (fun g => rfl)]
      exact h
  | listFolds =>
    intro s2 h2
    rw [handleCall, list_folds_snd] at h2
    exact hfile s2 h2
  | writeSummary fid S =>
    intro s2 h2
    rcases hff : findFold (loadState file) fid with _ | g
    · simp only [handleCall, write_summary, hff] at h2
      exact hfile s2 h2
    · simp only [handleCall, write_summary, hff] at h2
      injection h2 with h2
      subst h2
      simp only
  | unknown toolName =>
    intro s2 h2
    rw [handleCall] at h2
    exact hfile s2 h2

/-- Claim C5: `list_folds` never mutates the store; an empty store yields
exactly the fixed no-folds message with no header; a non-empty store yields
the header (fold count and summed `detail_tokens`) followed by every
record's rendering (`renderFold`: rewritten upper-cased id, status,
`detail_tokens`, two-decimal `relevance_score`, summary, `files_touched`
when non-empty), in store order. -/
theorem list_folds_rendering (file : Option Store) :
    (list_folds file).2 = file
    ∧ ((loadState file).folds = [] →
        (list_folds file).1 = "No folds stored yet.")
    ∧ ((loadState file).folds ≠ [] →
        (list_folds file).1
          = "[FOLD INDEX - " ++ toString (loadState file).folds.length
              ++ " sections, "
              ++ toString (sumDetailTokens (loadState file).folds)
              ++ " tokens stored]\n\n"
              ++ String.join ((loadState file).folds.map renderFold)) := by
  refine ⟨list_folds_snd file, fun he => ?_, fun hne => ?_⟩
  · rw [list_folds, he]
    rfl
  · have hb : (loadState file).folds.isEmpty = false := by
      cases hl : (loadState file).folds with
      | nil => exact absurd hl hne
      | cons a t => rfl
    simp only [list_folds, hb, Bool.false_eq_true, if_false]
    exact foldl_render_eq_join _ _

theorem list_folds_eq_nonempty (s : Store) (hb : s.folds.isEmpty = false) :
    list_folds (some s)
      = ("[FOLD INDEX - " ++ toString s.folds.length ++ " sections, "
          ++ toString (sumDetailTokens s.folds) ++ " tokens stored]\n\n"
          ++ String.join (s.folds.map renderFold), some s) := by
  simp only [list_folds, loadState, hb, Bool.false_eq_true, if_false]
  rw [foldl_render_eq_join]

theorem join_map_split (l : List FoldRecord) (f : FoldRecord) (hf : f ∈ l) :
    ∃ pre post,
      String.join (l.map renderFold) = pre ++ (renderFold f ++ post) := by
  induction l with
  | nil => cases hf
  | cons a t ih =>
    rcases List.mem_cons.mp hf with rfl | hmem
    · refine ⟨"", String.join (t.map renderFold), ?_⟩
      rw [List.map_cons, join_cons]
      simp
    · obtain ⟨pre, post, hp⟩ := ih hmem
      refine ⟨renderFold a ++ pre, post, ?_⟩
      rw [List.map_cons, join_cons, hp]
      simp [String.append_assoc]

theorem renderFold_contains_summary (f : FoldRecord) :
    ∃ pre post,
      renderFold f = pre ++ (("  " ++ f.summary ++ "\n") ++ post) := by
  refine ⟨replaceFirst (jsToUpper f.id) "FOLD-" "F" ++ " | " ++ jsToUpper f.status
      ++ " | " ++ toString f.detail_tokens ++ " tok | rel:"
      ++ toFixed2 f.relevance_score ++ "\n",
    (if f.files_touched.isEmpty then ""
      else "  files: " ++ String.intercalate ", " f.files_touched ++ "\n")
      ++ "\n", ?_⟩
  simp only [renderFold]
  simp [String.append_assoc]

theorem write_summary_eq_found (file : Option Store) (foldId S : String)
    (f : FoldRecord)
    (hf : (loadState file).folds.find? (fun g => g.id == foldId) = some f) :
    write_summary file foldId S
      = ("Summary updated for " ++ foldId ++ " ("
          ++ toString (estimateTokens S) ++ " tokens)",
        some { loadState file with
          folds := updateFirst
            (fun g => { g with
              summary := S, summary_tokens := estimateTokens S })
            foldId (loadState file).folds,
          total_summary_tokens := sumSummaryTokens (updateFirst
            (fun g => { g with
              summary := S, summary_tokens := estimateTokens S })
            foldId (loadState file).folds) }) := by
  simp only [write_summary, findFold, hf]

theorem list_folds_shows_summary (s2 : Store) (f2 : FoldRecord)
    (hmem : f2 ∈ s2.folds) :
    ∃ pre post, (list_folds (some s2)).1
      = pre ++ (("  " ++ f2.summary ++ "\n") ++ post) := by
  have hb : s2.folds.isEmpty = false := by
    cases hl : s2.folds with
    | nil => rw [hl] at hmem; cases hmem
    | cons a t => rfl
  rw [list_folds_eq_nonempty s2 hb]
  obtain ⟨pre, post, hp⟩ := join_map_split _ _ hmem
  obtain ⟨pre2, post2, hp2⟩ := renderFold_contains_summary f2
  rw [hp, hp2]
  refine ⟨("[FOLD INDEX - " ++ toString s2.folds.length ++ " sections, "
      ++ toString (sumDetailTokens s2.folds) ++ " tokens stored]\n\n")
      ++ pre ++ pre2, post2 ++ post, ?_⟩
  simp [String.append_assoc]

/-- Claim C6: `write_summary(id, S)` on a present id confirms with the new
token count, persists a store whose record for `id` carries summary `S` and
`summary_tokens = estimateTokens S`, re-establishes the aggregate
`total_summary_tokens` as the sum over all records, and a subsequent
`list_folds` output shows summary `S`. -/
theorem write_summary_roundtrip
    (file : Option Store) (foldId S : String) (f : FoldRecord)
    (hf : findFold (loadState file) foldId = some f) :
    (write_summary file foldId S).1
        = "Summary updated for " ++ foldId ++ " ("
            ++ toString (estimateTokens S) ++ " tokens)"
      ∧ ∃ s2, (write_summary file foldId S).2 = some s2
          ∧ findFold s2 foldId
              = some { f with summary := S, summary_tokens := estimateTokens S }
          ∧ storeInvariant s2
          ∧ ∃ pre post, (list_folds (some s2)).1
              = pre ++ (("  " ++ S ++ "\n") ++ post) := by
  rw [findFold] at hf
  rw [write_summary_eq_found file foldId S f hf]
  have hfind := find?_updateFirst
    (fun g => { g with summary := S, summary_tokens := estimateTokens S })
    (fun g => rfl) foldId (loadState file).folds f hf
  refine ⟨rfl, _, rfl, ?_, rfl, ?_⟩
  · rw [findFold]
    exact hfind
  · exact list_folds_shows_summary
      { loadState file with
        folds := updateFirst
          (fun g => { g with summary := S, summary_tokens := estimateTokens S })
          foldId (loadState file).folds,
        total_summary_tokens := sumSummaryTokens (updateFirst
          (fun g => { g with summary := S, summary_tokens := estimateTokens S })
          foldId (loadState file).folds) }
      { f with summary := S, summary_tokens := estimateTokens S }
      (List.mem_of_find?_eq_some hfind)

/-! ### Witnesses -/

set_option maxRecDepth 8000

/-- Witness for C1: records with summary tokens 5 and 7 give total 12; a
`write_summary` re-estimating one record to 9 tokens yields a persisted
store that satisfies the invariant, with total 16. -/
theorem handleCall_preserves_total_summary_invariant_witness :
    storeInvariant (loadState (some storeC1))
    ∧ (∀ s2, (handleCall [] (some storeC1)
        (ToolCall.writeSummary "fold-001" strC1)).2 = some s2 →
        storeInvariant s2)
    ∧ (∃ s2, (handleCall [] (some storeC1)
        (ToolCall.writeSummary "fold-001" strC1)).2 = some s2
        ∧ s2.total_summary_tokens = 16) := by
  have e9 : estimateTokens strC1 = 9 := by
    rw [estimateTokens_div30]
    decide
  refine ⟨by decide,
    handleCall_preserves_total_summary_invariant [] (some storeC1) _
      (by decide), ?_⟩
  simp only [handleCall]
  rw [write_summary_eq_found (some storeC1) "fold-001" strC1 recC1a rfl]
  refine ⟨_, rfl, ?_⟩
  simp only [e9]
  decide

/-- Witness for C3: the spec scenario (detail blob of 14 characters,
estimating to 4 tokens). -/
theorem unfold_section_found_updates_status_witness :
    (unfold_section [("fold-001", "full text here")] (some storeC3)
        "fold-001").1
      = "[fold-001 UNFOLDED - 4 tokens]\n\nfull text here"
    ∧ ∃ s2, (unfold_section [("fold-001", "full text here")] (some storeC3)
          "fold-001").2 = some s2
        ∧ findFold s2 "fold-001" = some { recC3 with status := "unfolded" } := by
  have e4 : estimateTokens "full text here" = 4 := by
    rw [estimateTokens_div30]
    decide
  have h := unfold_section_found_updates_status
    [("fold-001", "full text here")] (some storeC3) "fold-001"
    "full text here" recC3 rfl rfl
  refine ⟨?_, h.2⟩
  rw [h.1, e4]
  decide

/-- Witness for C4: querying `fold-404` against a store holding only
`fold-001`. -/
theorem not_found_is_text_and_no_mutation_witness :
    readDetail [] "fold-404" = none
    ∧ findFold (loadState (some storeC3)) "fold-404" = none
    ∧ unfold_section [] (some storeC3) "fold-404"
        = (notFoundDisk "fold-404", some storeC3)
    ∧ fold_section (some storeC3) "fold-404"
        = (notFoundState "fold-404", some storeC3)
    ∧ write_summary (some storeC3) "fold-404" "x"
        = (notFoundState "fold-404", some storeC3) := by
  have h := not_found_is_text_and_no_mutation [] (some storeC3) "fold-404" "x"
  exact ⟨rfl, rfl, h.1 rfl, (h.2 rfl).1, (h.2 rfl).2⟩

/-- Witness for C5: empty store message, and the full listing of a
two-record store (6000 detail tokens in total, one record with a files
line). -/
theorem list_folds_rendering_witness :
    (list_folds none).1 = "No folds stored yet."
    ∧ (list_folds (some storeC5)).1
        = "[FOLD INDEX - 2 sections, 6000 tokens stored]\n\n"
          ++ "F001 | FOLDED | 3200 tok | rel:0.85\n  auth>fix: jwt\n\n"
          ++ "F002 | UNFOLDED | 2800 tok | rel:0.00\n  db>migrate\n  files: src/db.ts, src/schema.sql\n\n" := by
  have ra : renderFold recC5a
      = "F001 | FOLDED | 3200 tok | rel:0.85\n  auth>fix: jwt\n\n" := by
    simp only [renderFold, recC5a]
    rw [toFixed2_p85]
    decide
  have rb : renderFold recC5b
      = "F002 | UNFOLDED | 2800 tok | rel:0.00\n  db>migrate\n  files: src/db.ts, src/schema.sql\n\n" := by
    simp only [renderFold, recC5b]
    rw [toFixed2_zero]
    decide
  constructor
  · exact (list_folds_rendering none).2.1 rfl
  · have h := (list_folds_rendering (some storeC5)).2.2 (by decide)
    rw [h]
    simp only [loadState, storeC5, List.map_cons, List.map_nil, join_cons]
    rw [ra, rb]
    decide

/-- Witness for C6: writing a 16-character summary (4 tokens) to
`fold-001` and listing it back. -/
theorem write_summary_roundtrip_witness :
    (write_summary (some storeC3) "fold-001" "auth>fix: jwt.ok").1
        = "Summary updated for fold-001 (4 tokens)"
      ∧ ∃ s2, (write_summary (some storeC3) "fold-001" "auth>fix: jwt.ok").2
            = some s2
          ∧ findFold s2 "fold-001"
              = some { recC3 with
                  summary := "auth>fix: jwt.ok", summary_tokens := 4 }
          ∧ storeInvariant s2
          ∧ ∃ pre post, (list_folds (some s2)).1
              = pre ++ (("  " ++ "auth>fix: jwt.ok" ++ "\n") ++ post) := by
  have e4 : estimateTokens "auth>fix: jwt.ok" = 4 := by
    rw [estimateTokens_div30]
    decide
  have h := write_summary_roundtrip (some storeC3) "fold-001"
    "auth>fix: jwt.ok" recC3 rfl
  simp only [e4] at h
  refine ⟨?_, h.2⟩
  rw [h.1]
  decide

/-- Witness for C8: folding the already-folded `fold-001` returns the
confirmation and the persisted file is byte-for-byte the old store. -/
theorem fold_section_idempotent_witness :
    fold_section (some storeC3) "fold-001"
      = ("[fold-001 FOLDED]\nSummary: auth>fix", some storeC3) := by
  have h := fold_section_idempotent (some storeC3) "fold-001" recC3 rfl rfl
  rw [h]
  decide

/-- Witness for C10: a detail blob for `fold-009` with no index record;
the result text is success-shaped and the store file is untouched. -/
theorem unfold_section_orphan_detail_witness :
    unfold_section [("fold-009", "orphan detail")] none "fold-009"
      = ("[fold-009 UNFOLDED - 3 tokens]\n\norphan detail", none) := by
  have e3 : estimateTokens "orphan detail" = 3 := by
    rw [estimateTokens_div30]
    decide
  have h := unfold_section_orphan_detail [("fold-009", "orphan detail")]
    none "fold-009" "orphan detail" rfl rfl
  rw [h, e3]
  decide
